import Mathlib

/-!
Shallow embedding of the terrakube provider resource handlers
(src/internal/provider/team_resource.go, src/internal/provider/module_resource.go).

Each Go handler performs a linear sequence of
marshal -> HTTP call -> read body -> unmarshal -> state assignment.
The HTTP transport and the jsonapi library are external collaborators, so they
enter the model as oracles: an ExchangeResult describes the outcome of one
client.Do call together with the result of the io.ReadAll on its body, and the
marshal and unmarshal functions of the jsonapi package are parameters of every
handler. The handler bodies below mirror the Go control flow branch by branch;
diagnostics keep the exact AddError titles of the source.
-/

namespace Terrakube

/-- One HTTP request as built by http.NewRequest plus Header.Add calls. -/
structure HttpRequest where
  method : String
  url : String
  headers : List (String × String)
  body : Option String
deriving DecidableEq, Repr

/-- Outcome of one r.client.Do exchange, together with the io.ReadAll on the
response body: transportError models a non-nil error from Do; response carries
the HTTP status, the bytes ReadAll produced (possibly truncated), and whether
ReadAll returned a nil error. -/
inductive ExchangeResult where
  | transportError
  | response (status : Nat) (bodyBytes : String) (bodyReadOk : Bool)
deriving DecidableEq, Repr

/-- What happened to the tracked state of the resource instance at the end of a
handler: kept leaves the prior tracked state intact, written σ is a
resp.State.Set with the given model, removed models dropping the instance from
tracked state (the framework RemoveResource behaviour a not-found aware Read
would use, and the implicit removal after an error-free Delete). -/
inductive StateOutcome (σ : Type) where
  | kept
  | written (s : σ)
  | removed
deriving DecidableEq, Repr

/-- Result of one handler run: the HTTP requests it issued in order, the titles
of the diagnostics it appended via AddError, and the state outcome. -/
structure HandlerResult (σ : Type) where
  trace : List HttpRequest
  diags : List String
  outcome : StateOutcome σ
deriving DecidableEq, Repr

def authHeader (token : String) : String × String :=
  ("Authorization", "Bearer " ++ token)

def contentTypeHeader : String × String :=
  ("Content-Type", "application/vnd.api+json")

/-- client.TeamEntity. The client package is not under src; its field set is
taken from every use in team_resource.go (ID, Name and the eight boolean
permission flags). -/
structure TeamEntity where
  id : String
  name : String
  manageState : Bool
  manageWorkspace : Bool
  manageModule : Bool
  manageProvider : Bool
  manageVcs : Bool
  manageTemplate : Bool
  manageJob : Bool
  manageCollection : Bool
deriving DecidableEq, Repr

/-- TeamResourceModel from team_resource.go. types.String and types.Bool are
modelled by their ValueString and ValueBool results. -/
structure TeamResourceModel where
  id : String
  name : String
  organizationId : String
  manageState : Bool
  manageWorkspace : Bool
  manageModule : Bool
  manageProvider : Bool
  manageVcs : Bool
  manageTemplate : Bool
  manageJob : Bool
  manageCollection : Bool
deriving DecidableEq, Repr

/-- A jsonapi.MarshalPayload collaborator: returns the buffer contents and
whether the returned error was nil (the buffer contents are used by the module
handlers even when marshalling failed, because the source discards that
error). -/
abbrev TeamMarshal := TeamEntity → String × Bool

/-- A jsonapi.UnmarshalPayload collaborator: none models a non-nil error. -/
abbrev TeamUnmarshal := String → Option TeamEntity

/-- The outbound entity of TeamResource.Create (team_resource.go lines
174-184): every attribute from the plan, identifier omitted. -/
def teamCreateBody (plan : TeamResourceModel) : TeamEntity :=
  { id := ""
    name := plan.name
    manageState := plan.manageState
    manageWorkspace := plan.manageWorkspace
    manageModule := plan.manageModule
    manageProvider := plan.manageProvider
    manageVcs := plan.manageVcs
    manageTemplate := plan.manageTemplate
    manageJob := plan.manageJob
    manageCollection := plan.manageCollection }

/-- The outbound entity of TeamResource.Update (team_resource.go lines
307-318): boolean flags from the plan, ID and Name from the prior state. -/
def teamUpdateBody (state plan : TeamResourceModel) : TeamEntity :=
  { id := state.id
    name := state.name
    manageState := plan.manageState
    manageWorkspace := plan.manageWorkspace
    manageModule := plan.manageModule
    manageProvider := plan.manageProvider
    manageVcs := plan.manageVcs
    manageTemplate := plan.manageTemplate
    manageJob := plan.manageJob
    manageCollection := plan.manageCollection }

def teamCollectionUrl (endpoint : String) (m : TeamResourceModel) : String :=
  endpoint ++ "/api/v1/organization/" ++ m.organizationId ++ "/team"

def teamEntityUrl (endpoint : String) (m : TeamResourceModel) : String :=
  endpoint ++ "/api/v1/organization/" ++ m.organizationId ++ "/team/" ++ m.id

def teamPostRequest (endpoint token : String) (plan : TeamResourceModel)
    (body : String) : HttpRequest :=
  { method := "POST"
    url := teamCollectionUrl endpoint plan
    headers := [authHeader token, contentTypeHeader]
    body := some body }

def teamGetRequest (endpoint token : String) (m : TeamResourceModel) : HttpRequest :=
  { method := "GET"
    url := teamEntityUrl endpoint m
    headers := [authHeader token, contentTypeHeader]
    body := none }

def teamPatchRequest (endpoint token : String) (m : TeamResourceModel)
    (body : String) : HttpRequest :=
  { method := "PATCH"
    url := teamEntityUrl endpoint m
    headers := [authHeader token, contentTypeHeader]
    body := some body }

/-- team_resource.go line 402-403: the DELETE request adds only the
Authorization header. -/
def teamDeleteRequest (endpoint token : String) (m : TeamResourceModel) : HttpRequest :=
  { method := "DELETE"
    url := teamEntityUrl endpoint m
    headers := [authHeader token]
    body := none }

/-- TeamResource.Create (team_resource.go lines 165-237). A failing io.ReadAll
on the response body is only logged (tflog.Error, line 210) and the bytes read
so far are decoded. -/
def teamCreate (marshal : TeamMarshal) (unmarshal : TeamUnmarshal)
    (endpoint token : String) (plan : TeamResourceModel) (env : ExchangeResult) :
    HandlerResult TeamResourceModel :=
  let out := marshal (teamCreateBody plan)
  if out.2 then
    let teamRequest := teamPostRequest endpoint token plan out.1
    match env with
    | .transportError =>
        { trace := [teamRequest]
          diags := ["Error executing team resource request"]
          outcome := .kept }
    | .response _ bodyResponse _ =>
        match unmarshal bodyResponse with
        | none =>
            { trace := [teamRequest]
              diags := ["Error unmarshal payload response"]
              outcome := .kept }
        | some newTeam =>
            { trace := [teamRequest]
              diags := []
              outcome := .written { plan with
                id := newTeam.id
                name := newTeam.name
                manageState := newTeam.manageState
                manageWorkspace := newTeam.manageWorkspace
                manageModule := newTeam.manageModule
                manageVcs := newTeam.manageVcs
                manageProvider := newTeam.manageProvider
                manageTemplate := newTeam.manageTemplate
                manageJob := newTeam.manageJob
                manageCollection := newTeam.manageCollection } }
  else
    { trace := [], diags := ["Unable to marshal payload"], outcome := .kept }

/-- TeamResource.Read (team_resource.go lines 239-295). The handler never
inspects the HTTP status and never calls RemoveResource; a failing io.ReadAll
is only logged (line 263). -/
def teamRead (unmarshal : TeamUnmarshal) (endpoint token : String)
    (state : TeamResourceModel) (env : ExchangeResult) :
    HandlerResult TeamResourceModel :=
  let teamRequest := teamGetRequest endpoint token state
  match env with
  | .transportError =>
      { trace := [teamRequest]
        diags := ["Error executing team resource request"]
        outcome := .kept }
  | .response _ bodyResponse _ =>
      match unmarshal bodyResponse with
      | none =>
          { trace := [teamRequest]
            diags := ["Error unmarshal payload response"]
            outcome := .kept }
      | some team =>
          { trace := [teamRequest]
            diags := []
            outcome := .written { state with
              name := team.name
              manageState := team.manageState
              manageWorkspace := team.manageWorkspace
              manageModule := team.manageModule
              manageVcs := team.manageVcs
              manageProvider := team.manageProvider
              manageTemplate := team.manageTemplate
              manageJob := team.manageJob
              manageCollection := team.manageCollection } }

/-- TeamResource.Update (team_resource.go lines 297-390): PATCH, then a
read-back GET; the PATCH response body is only logged (lines 342-347); a
failing io.ReadAll on the read-back body adds a diagnostic (line 365) but does
not return, so decoding of the bytes read so far still proceeds. -/
def teamUpdate (marshal : TeamMarshal) (unmarshal : TeamUnmarshal)
    (endpoint token : String) (state plan : TeamResourceModel)
    (patchEnv readEnv : ExchangeResult) : HandlerResult TeamResourceModel :=
  let out := marshal (teamUpdateBody state plan)
  if out.2 then
    let patchReq := teamPatchRequest endpoint token state out.1
    match patchEnv with
    | .transportError =>
        { trace := [patchReq]
          diags := ["Error executing team resource request"]
          outcome := .kept }
    | .response _ _ _ =>
        let getReq := teamGetRequest endpoint token state
        match readEnv with
        | .transportError =>
            { trace := [patchReq, getReq]
              diags := ["Error executing team resource request"]
              outcome := .kept }
        | .response _ bodyResponse bodyReadOk =>
            let diags0 :=
              if bodyReadOk then []
              else ["Error reading team resource response body"]
            match unmarshal bodyResponse with
            | none =>
                { trace := [patchReq, getReq]
                  diags := diags0 ++ ["Error unmarshal payload response"]
                  outcome := .kept }
            | some team =>
                { trace := [patchReq, getReq]
                  diags := diags0
                  outcome := .written { plan with
                    id := state.id
                    name := team.name
                    manageState := team.manageState
                    manageWorkspace := team.manageWorkspace
                    manageModule := team.manageModule
                    manageVcs := team.manageVcs
                    manageProvider := team.manageProvider
                    manageTemplate := team.manageTemplate
                    manageJob := team.manageJob
                    manageCollection := team.manageCollection } }
  else
    { trace := [], diags := ["Unable to marshal payload"], outcome := .kept }

/-- TeamResource.Delete (team_resource.go lines 392-414): one DELETE request
whose response is discarded; after an error-free Delete the framework removes
the instance from tracked state. -/
def teamDelete (endpoint token : String) (data : TeamResourceModel)
    (env : ExchangeResult) : HandlerResult TeamResourceModel :=
  let reqOrg := teamDeleteRequest endpoint token data
  match env with
  | .transportError =>
      { trace := [reqOrg]
        diags := ["Error executing team resource request"]
        outcome := .kept }
  | .response _ _ _ =>
      { trace := [reqOrg], diags := [], outcome := .removed }

/-- Executable model of the Go stdlib collaborator strings.Split for the
single-character separator comma: the substrings between commas, in order,
with empty substrings preserved. -/
def stringsSplitComma (s : String) : List String :=
  (s.toList.splitOn ',').map (fun l => String.mk l)

/-- TeamResource.ImportState (team_resource.go lines 416-429): split on comma,
require exactly two non-empty parts, seed organization_id with the first and
id with the second. -/
def teamImportState (reqID : String) : Except String (String × String) :=
  match stringsSplitComma reqID with
  | [a, b] =>
      if a = "" ∨ b = "" then .error "Unexpected Import Identifier"
      else .ok (a, b)
  | _ => .error "Unexpected Import Identifier"

/-- client.ModuleEntity. The client package is not under src; its field set is
taken from every use in module_resource.go (ID, Name, Description, Provider,
Source). -/
structure ModuleEntity where
  id : String
  name : String
  description : String
  provider : String
  source : String
deriving DecidableEq, Repr

/-- ModuleResourceModel from module_resource.go. -/
structure ModuleResourceModel where
  id : String
  name : String
  organizationId : String
  description : String
  providerName : String
  source : String
deriving DecidableEq, Repr

abbrev ModuleMarshal := ModuleEntity → String × Bool

abbrev ModuleUnmarshal := String → Option ModuleEntity

/-- The outbound entity of ModuleResource.Create (module_resource.go lines
114-119): every attribute from its corresponding plan field. -/
def moduleCreateBody (plan : ModuleResourceModel) : ModuleEntity :=
  { id := ""
    name := plan.name
    description := plan.description
    provider := plan.providerName
    source := plan.source }

/-- The outbound entity of ModuleResource.Update (module_resource.go lines
230-236): ID from the prior state, Name from the plan, and Description also
assigned from plan.Name (line 233 of the source reads
Description: plan.Name.ValueString()). -/
def moduleUpdateBody (state plan : ModuleResourceModel) : ModuleEntity :=
  { id := state.id
    name := plan.name
    description := plan.name
    provider := plan.providerName
    source := plan.source }

def moduleCollectionUrl (endpoint : String) (m : ModuleResourceModel) : String :=
  endpoint ++ "/api/v1/organization/" ++ m.organizationId ++ "/module"

def moduleEntityUrl (endpoint : String) (m : ModuleResourceModel) : String :=
  endpoint ++ "/api/v1/organization/" ++ m.organizationId ++ "/module/" ++ m.id

def modulePostRequest (endpoint token : String) (plan : ModuleResourceModel)
    (body : String) : HttpRequest :=
  { method := "POST"
    url := moduleCollectionUrl endpoint plan
    headers := [authHeader token, contentTypeHeader]
    body := some body }

def moduleGetRequest (endpoint token : String) (m : ModuleResourceModel) : HttpRequest :=
  { method := "GET"
    url := moduleEntityUrl endpoint m
    headers := [authHeader token, contentTypeHeader]
    body := none }

def modulePatchRequest (endpoint token : String) (m : ModuleResourceModel)
    (body : String) : HttpRequest :=
  { method := "PATCH"
    url := moduleEntityUrl endpoint m
    headers := [authHeader token, contentTypeHeader]
    body := some body }

/-- module_resource.go lines 309-310: the DELETE request adds only the
Authorization header. -/
def moduleDeleteRequest (endpoint token : String) (m : ModuleResourceModel) : HttpRequest :=
  { method := "DELETE"
    url := moduleEntityUrl endpoint m
    headers := [authHeader token]
    body := none }

/-- ModuleResource.Create (module_resource.go lines 105-165). The error of
jsonapi.MarshalPayload is discarded (line 122), so the request is issued with
whatever the buffer holds; a failing io.ReadAll is only logged (line 140). -/
def moduleCreate (marshal : ModuleMarshal) (unmarshal : ModuleUnmarshal)
    (endpoint token : String) (plan : ModuleResourceModel) (env : ExchangeResult) :
    HandlerResult ModuleResourceModel :=
  let out := marshal (moduleCreateBody plan)
  let moduleRequest := modulePostRequest endpoint token plan out.1
  match env with
  | .transportError =>
      { trace := [moduleRequest]
        diags := ["Error executing module resource request"]
        outcome := .kept }
  | .response _ bodyResponse _ =>
      match unmarshal bodyResponse with
      | none =>
          { trace := [moduleRequest]
            diags := ["Error unmarshal payload response"]
            outcome := .kept }
      | some newModule =>
          { trace := [moduleRequest]
            diags := []
            outcome := .written { plan with
              id := newModule.id
              name := newModule.name
              description := newModule.description
              providerName := newModule.provider
              source := newModule.source } }

/-- ModuleResource.Read (module_resource.go lines 167-218). The handler never
inspects the HTTP status and never calls RemoveResource; a failing io.ReadAll
is only logged (line 191). -/
def moduleRead (unmarshal : ModuleUnmarshal) (endpoint token : String)
    (state : ModuleResourceModel) (env : ExchangeResult) :
    HandlerResult ModuleResourceModel :=
  let moduleRequest := moduleGetRequest endpoint token state
  match env with
  | .transportError =>
      { trace := [moduleRequest]
        diags := ["Error executing module resource request"]
        outcome := .kept }
  | .response _ bodyResponse _ =>
      match unmarshal bodyResponse with
      | none =>
          { trace := [moduleRequest]
            diags := ["Error unmarshal payload response"]
            outcome := .kept }
      | some module =>
          { trace := [moduleRequest]
            diags := []
            outcome := .written { state with
              name := module.name
              description := module.description
              providerName := module.provider
              source := module.source } }

/-- ModuleResource.Update (module_resource.go lines 220-298): PATCH (marshal
error discarded, line 239), then a read-back GET; the PATCH response body is
only logged (lines 255-260); a failing io.ReadAll on the read-back body adds a
diagnostic (line 278) but does not return. -/
def moduleUpdate (marshal : ModuleMarshal) (unmarshal : ModuleUnmarshal)
    (endpoint token : String) (state plan : ModuleResourceModel)
    (patchEnv readEnv : ExchangeResult) : HandlerResult ModuleResourceModel :=
  let out := marshal (moduleUpdateBody state plan)
  let patchReq := modulePatchRequest endpoint token state out.1
  match patchEnv with
  | .transportError =>
      { trace := [patchReq]
        diags := ["Error executing module resource request"]
        outcome := .kept }
  | .response _ _ _ =>
      let getReq := moduleGetRequest endpoint token state
      match readEnv with
      | .transportError =>
          { trace := [patchReq, getReq]
            diags := ["Error executing module resource request"]
            outcome := .kept }
      | .response _ bodyResponse bodyReadOk =>
          let diags0 :=
            if bodyReadOk then []
            else ["Error reading module resource response body"]
          match unmarshal bodyResponse with
          | none =>
              { trace := [patchReq, getReq]
                diags := diags0 ++ ["Error unmarshal payload response"]
                outcome := .kept }
          | some module =>
              { trace := [patchReq, getReq]
                diags := diags0
                outcome := .written { plan with
                  id := state.id
                  name := module.name
                  description := module.description
                  providerName := module.provider
                  source := module.source } }

/-- ModuleResource.Delete (module_resource.go lines 300-321): one DELETE
request whose response is discarded. -/
def moduleDelete (endpoint token : String) (data : ModuleResourceModel)
    (env : ExchangeResult) : HandlerResult ModuleResourceModel :=
  let reqOrg := moduleDeleteRequest endpoint token data
  match env with
  | .transportError =>
      { trace := [reqOrg]
        diags := ["Error executing module resource request"]
        outcome := .kept }
  | .response _ _ _ =>
      { trace := [reqOrg], diags := [], outcome := .removed }

/-- ModuleResource.ImportState (module_resource.go lines 323-325) delegates to
the framework helper ImportStatePassthroughID, which copies the raw import
string into the id attribute without validating or splitting it. -/
def moduleImportState (reqID : String) : Except String String :=
  .ok reqID

/-- TerrakubeConnectionData: the provider-level connection context (endpoint,
token, insecure flag) shared by all resources. -/
structure TerrakubeConnectionData where
  endpoint : String
  token : String
  insecureHttpClient : Bool
deriving DecidableEq, Repr

/-- The TLS-relevant part of the http.Client a Configure call builds. -/
structure HttpClientConfig where
  insecureSkipVerify : Bool
deriving DecidableEq, Repr

/-- TeamResource.Configure (team_resource.go lines 147-157): only when the
InsecureHttpClient flag is set does it clone http.DefaultTransport with
InsecureSkipVerify true; transportOk models the checked type assertion
http.DefaultTransport.(*http.Transport), whose failure falls back to a default
client with verification enabled. -/
def teamConfigureClient (transportOk : Bool) (d : TerrakubeConnectionData) :
    HttpClientConfig :=
  if d.insecureHttpClient then
    if transportOk then { insecureSkipVerify := true }
    else { insecureSkipVerify := false }
  else { insecureSkipVerify := false }

/-- ModuleResource.Configure (module_resource.go lines 94-96): unconditionally
clones http.DefaultTransport with InsecureSkipVerify true, never consulting
the InsecureHttpClient flag; the unchecked type assertion panics when
http.DefaultTransport is not an *http.Transport, modelled as none. -/
def moduleConfigureClient (transportOk : Bool) (_ : TerrakubeConnectionData) :
    Option HttpClientConfig :=
  if transportOk then some { insecureSkipVerify := true } else none

/-- The team schema (team_resource.go lines 57-130) as the user writes it:
name and organization_id required strings, every manage flag an optional
boolean. -/
structure TeamConfig where
  name : String
  organizationId : String
  manageState : Option Bool
  manageWorkspace : Option Bool
  manageModule : Option Bool
  manageProvider : Option Bool
  manageVcs : Option Bool
  manageTemplate : Option Bool
  manageJob : Option Bool
  manageCollection : Option Bool
deriving DecidableEq, Repr

/-- The schema layer of the host framework applied to a team configuration:
each optional Computed boolean declares Default booldefault.StaticBool(false)
(team_resource.go lines 80-127), so the framework fills every absent flag with
false before Create runs; the computed id is unknown at create time, so its
ValueString is empty. -/
def applyTeamDefaults (c : TeamConfig) : TeamResourceModel :=
  { id := ""
    name := c.name
    organizationId := c.organizationId
    manageState := c.manageState.getD false
    manageWorkspace := c.manageWorkspace.getD false
    manageModule := c.manageModule.getD false
    manageProvider := c.manageProvider.getD false
    manageVcs := c.manageVcs.getD false
    manageTemplate := c.manageTemplate.getD false
    manageJob := c.manageJob.getD false
    manageCollection := c.manageCollection.getD false }

/-- A handler run that ended with a fatal diagnostic and untouched state. -/
def keptWithDiag {σ : Type} (r : HandlerResult σ) : Prop :=
  r.outcome = .kept ∧ r.diags ≠ []

/-! Concrete fixtures used by counterexamples and witnesses. -/

def teamStateW : TeamResourceModel :=
  { id := "team-1", name := "old-name", organizationId := "org-1"
    manageState := false, manageWorkspace := true, manageModule := false
    manageProvider := false, manageVcs := false, manageTemplate := false
    manageJob := false, manageCollection := false }

def teamPlanW : TeamResourceModel :=
  { id := "team-1", name := "new-name", organizationId := "org-1"
    manageState := true, manageWorkspace := false, manageModule := false
    manageProvider := false, manageVcs := false, manageTemplate := false
    manageJob := true, manageCollection := false }

def teamEntityW : TeamEntity :=
  { id := "team-9", name := "server-name"
    manageState := true, manageWorkspace := false, manageModule := true
    manageProvider := false, manageVcs := false, manageTemplate := false
    manageJob := false, manageCollection := true }

def mTeamOkW : TeamMarshal := fun _ => ("payload", true)

def uTeamSomeW : TeamUnmarshal := fun _ => some teamEntityW

def uTeamNoneW : TeamUnmarshal := fun _ => none

def moduleStateW : ModuleResourceModel :=
  { id := "mod-1", name := "old-name", organizationId := "org-1"
    description := "old description", providerName := "aws", source := "git-a" }

def modulePlanW : ModuleResourceModel :=
  { id := "mod-1", name := "new-name", organizationId := "org-1"
    description := "A sample module", providerName := "aws", source := "git-a" }

def moduleEntityW : ModuleEntity :=
  { id := "mod-9", name := "srv-name", description := "srv-desc"
    provider := "google", source := "git-b" }

def mModOkW : ModuleMarshal := fun _ => ("payload", true)

def uModSomeW : ModuleUnmarshal := fun _ => some moduleEntityW

def uModNoneW : ModuleUnmarshal := fun _ => none

/-- The team configuration of the create scenario: manage_job set to true,
every other optional flag absent. -/
def infraAdminsConfig (org : String) : TeamConfig :=
  { name := "infra-admins", organizationId := org
    manageState := none, manageWorkspace := none, manageModule := none
    manageProvider := none, manageVcs := none, manageTemplate := none
    manageJob := some true, manageCollection := none }

end Terrakube

namespace Terrakube

/-- C4 counterexample: the module update request body takes its name from the
plan, so with a renamed plan the serialized name is the new plan name and not
the previously known state name, refuting the claim for the module kind. -/
theorem moduleUpdateBody_takes_plan_name_cex :
    (moduleUpdateBody moduleStateW modulePlanW).name = "new-name"
    ∧ moduleStateW.name = "old-name"
    ∧ (moduleUpdateBody moduleStateW modulePlanW).name ≠ moduleStateW.name := by
  refine ⟨rfl, rfl, ?_⟩
  decide

/-- C4 (amended): the team update request body carries the ID and the name
from the prior tracked state, while the module update request body carries the
name from the plan. -/
theorem updateBody_name_sources (st pl : TeamResourceModel)
    (sm pm : ModuleResourceModel) :
    (teamUpdateBody st pl).name = st.name
    ∧ (teamUpdateBody st pl).id = st.id
    ∧ (moduleUpdateBody sm pm).name = pm.name :=
  ⟨rfl, rfl, rfl⟩

/-- C6: in the module update request body the description field is assigned
from the name field of the plan, diverging from the plan description, whereas
the create path maps the description correctly. -/
theorem moduleUpdateBody_description_bug :
    (moduleUpdateBody moduleStateW modulePlanW).description = modulePlanW.name
    ∧ modulePlanW.name = "new-name"
    ∧ modulePlanW.description = "A sample module"
    ∧ (moduleUpdateBody moduleStateW modulePlanW).description ≠ modulePlanW.description
    ∧ (moduleCreateBody modulePlanW).description = modulePlanW.description := by
  refine ⟨rfl, rfl, rfl, ?_, rfl⟩
  decide

/-- C10: for every connection context, module Configure builds a client with
TLS certificate verification disabled regardless of the InsecureHttpClient
flag, while team Configure disables verification exactly when the flag is set
and the transport assertion succeeds. -/
theorem configure_tls_verification (ok : Bool) (d : TerrakubeConnectionData) :
    moduleConfigureClient true d = some { insecureSkipVerify := true }
    ∧ teamConfigureClient ok d = { insecureSkipVerify := d.insecureHttpClient && ok } := by
  constructor
  · rfl
  · unfold teamConfigureClient
    cases ok <;> cases hd : d.insecureHttpClient <;> simp [hd]

/-- C5 counterexample: the module import entry point performs no validation
and no splitting, so the single-part identifier that the claim requires to
fail is accepted unchanged, and a two-part identifier is not split. -/
theorem moduleImport_no_validation_cex :
    moduleImportState "org1" = .ok "org1"
    ∧ moduleImportState "org1,team1" = .ok "org1,team1"
    ∧ moduleImportState "org1," = .ok "org1," :=
  ⟨rfl, rfl, rfl⟩

/-- C5 (amended): the team import entry point fails with the import-identifier
diagnostic unless the string splits on commas into exactly two non-empty
parts, seeding the organization identifier and the entity identifier from the
two parts on success, while the module import entry point accepts any string
unchanged as the id without validation. -/
theorem import_identifier_validation (s a b : String) :
    teamImportState "org1,team1" = .ok ("org1", "team1")
    ∧ teamImportState "org1" = .error "Unexpected Import Identifier"
    ∧ teamImportState "org1," = .error "Unexpected Import Identifier"
    ∧ (teamImportState s = .ok (a, b) →
        stringsSplitComma s = [a, b] ∧ a ≠ "" ∧ b ≠ "")
    ∧ moduleImportState s = .ok s := by
  refine ⟨rfl, rfl, rfl, ?_, rfl⟩
  intro h
  unfold teamImportState at h
  split at h
  case h_1 a0 b0 heq =>
    split at h
    case isTrue => exact absurd h (by simp)
    case isFalse hne =>
      push_neg at hne
      simp only [Except.ok.injEq, Prod.mk.injEq] at h
      obtain ⟨ha, hb⟩ := h
      subst ha
      subst hb
      exact ⟨heq, hne.1, hne.2⟩
  case h_2 => exact absurd h (by simp)

theorem import_identifier_validation_witness :
    teamImportState "o1,t1" = .ok ("o1", "t1")
    ∧ (stringsSplitComma "o1,t1" = ["o1", "t1"] ∧ "o1" ≠ "" ∧ "t1" ≠ "") :=
  ⟨rfl, (import_identifier_validation "o1,t1" "o1" "t1").2.2.2.1 rfl⟩

/-! Trace shape lemmas: which HTTP requests each handler can issue. -/

theorem teamCreate_trace (m : TeamMarshal) (u : TeamUnmarshal) (e t : String)
    (pl : TeamResourceModel) (env : ExchangeResult) :
    (teamCreate m u e t pl env).trace = []
    ∨ (teamCreate m u e t pl env).trace
        = [teamPostRequest e t pl (m (teamCreateBody pl)).1] := by
  cases hm : (m (teamCreateBody pl)).2 with
  | false => left; simp [teamCreate, hm]
  | true =>
    right
    cases env with
    | transportError => simp [teamCreate, hm]
    | response s b k => cases hu : u b <;> simp [teamCreate, hm, hu]

theorem teamRead_trace (u : TeamUnmarshal) (e t : String)
    (st : TeamResourceModel) (env : ExchangeResult) :
    (teamRead u e t st env).trace = [teamGetRequest e t st] := by
  cases env with
  | transportError => rfl
  | response s b k => cases hu : u b <;> simp [teamRead, hu]

theorem teamUpdate_trace (m : TeamMarshal) (u : TeamUnmarshal) (e t : String)
    (st pl : TeamResourceModel) (penv renv : ExchangeResult) :
    (teamUpdate m u e t st pl penv renv).trace = []
    ∨ (teamUpdate m u e t st pl penv renv).trace
        = [teamPatchRequest e t st (m (teamUpdateBody st pl)).1]
    ∨ (teamUpdate m u e t st pl penv renv).trace
        = [teamPatchRequest e t st (m (teamUpdateBody st pl)).1,
           teamGetRequest e t st] := by
  cases hm : (m (teamUpdateBody st pl)).2 with
  | false => left; simp [teamUpdate, hm]
  | true =>
    right
    cases penv with
    | transportError => left; simp [teamUpdate, hm]
    | response ps pb pk =>
      right
      cases renv with
      | transportError => simp [teamUpdate, hm]
      | response rs rb rk => cases hu : u rb <;> simp [teamUpdate, hm, hu]

theorem teamDelete_trace (e t : String) (st : TeamResourceModel)
    (env : ExchangeResult) :
    (teamDelete e t st env).trace = [teamDeleteRequest e t st] := by
  cases env <;> rfl

theorem moduleCreate_trace (m : ModuleMarshal) (u : ModuleUnmarshal)
    (e t : String) (pl : ModuleResourceModel) (env : ExchangeResult) :
    (moduleCreate m u e t pl env).trace
      = [modulePostRequest e t pl (m (moduleCreateBody pl)).1] := by
  cases env with
  | transportError => rfl
  | response s b k => cases hu : u b <;> simp [moduleCreate, hu]

theorem moduleRead_trace (u : ModuleUnmarshal) (e t : String)
    (st : ModuleResourceModel) (env : ExchangeResult) :
    (moduleRead u e t st env).trace = [moduleGetRequest e t st] := by
  cases env with
  | transportError => rfl
  | response s b k => cases hu : u b <;> simp [moduleRead, hu]

theorem moduleUpdate_trace (m : ModuleMarshal) (u : ModuleUnmarshal)
    (e t : String) (st pl : ModuleResourceModel) (penv renv : ExchangeResult) :
    (moduleUpdate m u e t st pl penv renv).trace
        = [modulePatchRequest e t st (m (moduleUpdateBody st pl)).1]
    ∨ (moduleUpdate m u e t st pl penv renv).trace
        = [modulePatchRequest e t st (m (moduleUpdateBody st pl)).1,
           moduleGetRequest e t st] := by
  cases penv with
  | transportError => left; rfl
  | response ps pb pk =>
    right
    cases renv with
    | transportError => rfl
    | response rs rb rk => cases hu : u rb <;> simp [moduleUpdate, hu]

theorem moduleDelete_trace (e t : String) (st : ModuleResourceModel)
    (env : ExchangeResult) :
    (moduleDelete e t st env).trace = [moduleDeleteRequest e t st] := by
  cases env <;> rfl

/-- C7 counterexample: the DELETE requests of both Delete handlers carry only
the Authorization header, so the request issued by a concrete Delete run lacks
the Content-Type header the claim requires on every request. -/
theorem delete_request_headers_cex :
    (teamDelete "https://tk" "tok" teamStateW (.response 200 "" true)).trace
      = [teamDeleteRequest "https://tk" "tok" teamStateW]
    ∧ contentTypeHeader ∉ (teamDeleteRequest "https://tk" "tok" teamStateW).headers
    ∧ (moduleDelete "https://tk" "tok" moduleStateW (.response 200 "" true)).trace
      = [moduleDeleteRequest "https://tk" "tok" moduleStateW]
    ∧ contentTypeHeader ∉ (moduleDeleteRequest "https://tk" "tok" moduleStateW).headers := by
  refine ⟨rfl, ?_, rfl, ?_⟩ <;> decide

/-- C7 (amended): every request issued by Create, Read and Update of both
resource kinds carries the bearer Authorization header and the JSON:API
Content-Type header, while the single request issued by either Delete handler
carries the Authorization header but no Content-Type header. -/
theorem request_headers (m : TeamMarshal) (u : TeamUnmarshal)
    (mm : ModuleMarshal) (um : ModuleUnmarshal) (e t : String)
    (st pl : TeamResourceModel) (sm pm : ModuleResourceModel)
    (env penv renv : ExchangeResult) (r : HttpRequest) :
    (r ∈ (teamCreate m u e t pl env).trace →
      authHeader t ∈ r.headers ∧ contentTypeHeader ∈ r.headers)
    ∧ (r ∈ (teamRead u e t st env).trace →
      authHeader t ∈ r.headers ∧ contentTypeHeader ∈ r.headers)
    ∧ (r ∈ (teamUpdate m u e t st pl penv renv).trace →
      authHeader t ∈ r.headers ∧ contentTypeHeader ∈ r.headers)
    ∧ (r ∈ (moduleCreate mm um e t pm env).trace →
      authHeader t ∈ r.headers ∧ contentTypeHeader ∈ r.headers)
    ∧ (r ∈ (moduleRead um e t sm env).trace →
      authHeader t ∈ r.headers ∧ contentTypeHeader ∈ r.headers)
    ∧ (r ∈ (moduleUpdate mm um e t sm pm penv renv).trace →
      authHeader t ∈ r.headers ∧ contentTypeHeader ∈ r.headers)
    ∧ (r ∈ (teamDelete e t st env).trace →
      authHeader t ∈ r.headers ∧ contentTypeHeader ∉ r.headers)
    ∧ (r ∈ (moduleDelete e t sm env).trace →
      authHeader t ∈ r.headers ∧ contentTypeHeader ∉ r.headers) := by
  have hct : contentTypeHeader ≠ authHeader t := by
    intro hcontra
    have h1 : "Content-Type" = "Authorization" := congrArg Prod.fst hcontra
    exact absurd h1 (by decide)
  refine ⟨?_, ?_, ?_, ?_, ?_, ?_, ?_, ?_⟩
  · intro hr
    rcases teamCreate_trace m u e t pl env with heq | heq <;> rw [heq] at hr
    · exact absurd hr (by simp)
    · simp only [List.mem_singleton] at hr
      subst hr
      exact ⟨by simp [teamPostRequest], by simp [teamPostRequest]⟩
  · intro hr
    rw [teamRead_trace u e t st env] at hr
    simp only [List.mem_singleton] at hr
    subst hr
    exact ⟨by simp [teamGetRequest], by simp [teamGetRequest]⟩
  · intro hr
    rcases teamUpdate_trace m u e t st pl penv renv with heq | heq | heq <;>
      rw [heq] at hr
    · exact absurd hr (by simp)
    · simp only [List.mem_singleton] at hr
      subst hr
      exact ⟨by simp [teamPatchRequest], by simp [teamPatchRequest]⟩
    · simp only [List.mem_cons, List.mem_singleton, List.not_mem_nil, or_false] at hr
      rcases hr with hr | hr <;> subst hr
      · exact ⟨by simp [teamPatchRequest], by simp [teamPatchRequest]⟩
      · exact ⟨by simp [teamGetRequest], by simp [teamGetRequest]⟩
  · intro hr
    rw [moduleCreate_trace mm um e t pm env] at hr
    simp only [List.mem_singleton] at hr
    subst hr
    exact ⟨by simp [modulePostRequest], by simp [modulePostRequest]⟩
  · intro hr
    rw [moduleRead_trace um e t sm env] at hr
    simp only [List.mem_singleton] at hr
    subst hr
    exact ⟨by simp [moduleGetRequest], by simp [moduleGetRequest]⟩
  · intro hr
    rcases moduleUpdate_trace mm um e t sm pm penv renv with heq | heq <;>
      rw [heq] at hr
    · simp only [List.mem_singleton] at hr
      subst hr
      exact ⟨by simp [modulePatchRequest], by simp [modulePatchRequest]⟩
    · simp only [List.mem_cons, List.mem_singleton, List.not_mem_nil, or_false] at hr
      rcases hr with hr | hr <;> subst hr
      · exact ⟨by simp [modulePatchRequest], by simp [modulePatchRequest]⟩
      · exact ⟨by simp [moduleGetRequest], by simp [moduleGetRequest]⟩
  · intro hr
    rw [teamDelete_trace e t st env] at hr
    simp only [List.mem_singleton] at hr
    subst hr
    refine ⟨by simp [teamDeleteRequest], ?_⟩
    simp only [teamDeleteRequest, List.mem_singleton]
    exact hct
  · intro hr
    rw [moduleDelete_trace e t sm env] at hr
    simp only [List.mem_singleton] at hr
    subst hr
    refine ⟨by simp [moduleDeleteRequest], ?_⟩
    simp only [moduleDeleteRequest, List.mem_singleton]
    exact hct

theorem request_headers_witness :
    teamPostRequest "https://tk" "tok" teamPlanW "payload"
      ∈ (teamCreate mTeamOkW uTeamSomeW "https://tk" "tok" teamPlanW
          (.response 200 "b" true)).trace
    ∧ authHeader "tok" ∈ (teamPostRequest "https://tk" "tok" teamPlanW "payload").headers
    ∧ contentTypeHeader ∈ (teamPostRequest "https://tk" "tok" teamPlanW "payload").headers := by
  have hmem : teamPostRequest "https://tk" "tok" teamPlanW "payload"
      ∈ (teamCreate mTeamOkW uTeamSomeW "https://tk" "tok" teamPlanW
          (.response 200 "b" true)).trace := by
    simp [teamCreate, mTeamOkW, uTeamSomeW]
  have h := (request_headers mTeamOkW uTeamSomeW mModOkW uModSomeW
      "https://tk" "tok" teamStateW teamPlanW moduleStateW modulePlanW
      (.response 200 "b" true) (.response 200 "b" true) (.response 200 "b" true)
      (teamPostRequest "https://tk" "tok" teamPlanW "payload")).1 hmem
  exact ⟨hmem, h.1, h.2⟩

/-- C1 counterexample: on a not-found response (status 404 with a body that is
not a decodable entity document) the team Read handler reports the fatal
unmarshal diagnostic and keeps the instance in tracked state; it does not drop
the instance. -/
theorem read_notFound_cex :
    (teamRead uTeamNoneW "https://tk" "tok" teamStateW
        (.response 404 "not found" true)).outcome = .kept
    ∧ (teamRead uTeamNoneW "https://tk" "tok" teamStateW
        (.response 404 "not found" true)).outcome
        ≠ (.removed : StateOutcome TeamResourceModel)
    ∧ (teamRead uTeamNoneW "https://tk" "tok" teamStateW
        (.response 404 "not found" true)).diags
        = ["Error unmarshal payload response"] := by
  refine ⟨rfl, ?_, rfl⟩
  decide

/-- C1 (amended): neither Read handler ever drops the instance from tracked
state; the handlers never inspect the HTTP status, and when the response body
does not decode (as with a not-found response) they report the fatal unmarshal
diagnostic and keep the prior state. -/
theorem read_never_drops (u : TeamUnmarshal) (um : ModuleUnmarshal)
    (e t : String) (st : TeamResourceModel) (sm : ModuleResourceModel)
    (env : ExchangeResult) (status : Nat) (b : String) (k : Bool) :
    (teamRead u e t st env).outcome ≠ .removed
    ∧ (moduleRead um e t sm env).outcome ≠ .removed
    ∧ (env = .response status b k → u b = none →
        (teamRead u e t st env).outcome = .kept
        ∧ (teamRead u e t st env).diags = ["Error unmarshal payload response"])
    ∧ (env = .response status b k → um b = none →
        (moduleRead um e t sm env).outcome = .kept
        ∧ (moduleRead um e t sm env).diags = ["Error unmarshal payload response"]) := by
  refine ⟨?_, ?_, ?_, ?_⟩
  · cases env with
    | transportError => simp [teamRead]
    | response s b2 k2 => cases hu : u b2 <;> simp [teamRead, hu]
  · cases env with
    | transportError => simp [moduleRead]
    | response s b2 k2 => cases hu : um b2 <;> simp [moduleRead, hu]
  · intro henv hu
    subst henv
    exact ⟨by simp [teamRead, hu], by simp [teamRead, hu]⟩
  · intro henv hu
    subst henv
    exact ⟨by simp [moduleRead, hu], by simp [moduleRead, hu]⟩

theorem read_never_drops_witness :
    ((.response 404 "not found" true : ExchangeResult)
        = .response 404 "not found" true)
    ∧ uTeamNoneW "not found" = none
    ∧ (teamRead uTeamNoneW "https://tk" "tok" teamStateW
        (.response 404 "not found" true)).outcome = .kept := by
  refine ⟨rfl, rfl, ?_⟩
  exact ((read_never_drops uTeamNoneW uModNoneW "https://tk" "tok" teamStateW
      moduleStateW (.response 404 "not found" true) 404 "not found" true).2.2.1
      rfl rfl).1

/-- C3 counterexample: in a team Create run whose response body read fails
(bodyReadOk false) but whose partial bytes still decode, the handler writes a
fully repopulated state and reports no diagnostic, so a failing step neither
produces a diagnostic nor leaves the prior tracked state unchanged. -/
theorem bodyRead_failure_writes_state_cex :
    (teamCreate mTeamOkW uTeamSomeW "https://tk" "tok" teamPlanW
        (.response 200 "partial" false)).diags = []
    ∧ (teamCreate mTeamOkW uTeamSomeW "https://tk" "tok" teamPlanW
        (.response 200 "partial" false)).outcome
        ≠ (.kept : StateOutcome TeamResourceModel)
    ∧ (teamCreate mTeamOkW uTeamSomeW "https://tk" "tok" teamPlanW
        (.response 200 "partial" false)).outcome
        = .written { teamPlanW with
            id := teamEntityW.id
            name := teamEntityW.name
            manageState := teamEntityW.manageState
            manageWorkspace := teamEntityW.manageWorkspace
            manageModule := teamEntityW.manageModule
            manageVcs := teamEntityW.manageVcs
            manageProvider := teamEntityW.manageProvider
            manageTemplate := teamEntityW.manageTemplate
            manageJob := teamEntityW.manageJob
            manageCollection := teamEntityW.manageCollection } := by
  refine ⟨rfl, ?_, rfl⟩
  decide

/-- C3 (amended): transport failures and decoding failures in Create, Read and
Update of both kinds report a diagnostic and leave the prior tracked state
unchanged, and a team serialization failure does likewise without issuing any
request; module serialization failures are ignored, and response body-read
failures do not by themselves stop an operation. -/
theorem failing_steps_guarantees (m : TeamMarshal) (u : TeamUnmarshal)
    (mm : ModuleMarshal) (um : ModuleUnmarshal) (e t : String)
    (st pl : TeamResourceModel) (sm pm : ModuleResourceModel)
    (env renv : ExchangeResult) (status : Nat) (b : String) (k : Bool) :
    keptWithDiag (teamCreate m u e t pl .transportError)
    ∧ (u b = none → keptWithDiag (teamCreate m u e t pl (.response status b k)))
    ∧ ((m (teamCreateBody pl)).2 = false →
        teamCreate m u e t pl env
          = ⟨[], ["Unable to marshal payload"], .kept⟩)
    ∧ keptWithDiag (teamRead u e t st .transportError)
    ∧ (u b = none → keptWithDiag (teamRead u e t st (.response status b k)))
    ∧ keptWithDiag (teamUpdate m u e t st pl .transportError renv)
    ∧ keptWithDiag (teamUpdate m u e t st pl (.response status b k) .transportError)
    ∧ (u b = none →
        keptWithDiag (teamUpdate m u e t st pl env (.response status b k)))
    ∧ ((m (teamUpdateBody st pl)).2 = false →
        teamUpdate m u e t st pl env renv
          = ⟨[], ["Unable to marshal payload"], .kept⟩)
    ∧ keptWithDiag (moduleCreate mm um e t pm .transportError)
    ∧ (um b = none →
        keptWithDiag (moduleCreate mm um e t pm (.response status b k)))
    ∧ keptWithDiag (moduleRead um e t sm .transportError)
    ∧ (um b = none →
        keptWithDiag (moduleRead um e t sm (.response status b k)))
    ∧ keptWithDiag (moduleUpdate mm um e t sm pm .transportError renv)
    ∧ keptWithDiag (moduleUpdate mm um e t sm pm (.response status b k) .transportError)
    ∧ (um b = none →
        keptWithDiag (moduleUpdate mm um e t sm pm env (.response status b k))) := by
  refine ⟨?_, ?_, ?_, ?_, ?_, ?_, ?_, ?_, ?_, ?_, ?_, ?_, ?_, ?_, ?_, ?_⟩
  · cases hm : (m (teamCreateBody pl)).2 <;>
      simp [teamCreate, keptWithDiag, hm]
  · intro hu
    cases hm : (m (teamCreateBody pl)).2 <;>
      simp [teamCreate, keptWithDiag, hm, hu]
  · intro hm
    simp [teamCreate, hm]
  · simp [teamRead, keptWithDiag]
  · intro hu
    simp [teamRead, keptWithDiag, hu]
  · cases hm : (m (teamUpdateBody st pl)).2 <;>
      simp [teamUpdate, keptWithDiag, hm]
  · cases hm : (m (teamUpdateBody st pl)).2 <;>
      simp [teamUpdate, keptWithDiag, hm]
  · intro hu
    cases hm : (m (teamUpdateBody st pl)).2 <;>
      cases env <;> cases k <;>
      simp [teamUpdate, keptWithDiag, hm, hu]
  · intro hm
    simp [teamUpdate, hm]
  · simp [moduleCreate, keptWithDiag]
  · intro hu
    simp [moduleCreate, keptWithDiag, hu]
  · simp [moduleRead, keptWithDiag]
  · intro hu
    simp [moduleRead, keptWithDiag, hu]
  · simp [moduleUpdate, keptWithDiag]
  · simp [moduleUpdate, keptWithDiag]
  · intro hu
    cases env <;> cases k <;>
      simp [moduleUpdate, keptWithDiag, hu]

theorem failing_steps_guarantees_witness :
    uTeamNoneW "bad body" = none
    ∧ keptWithDiag (teamCreate mTeamOkW uTeamNoneW "https://tk" "tok" teamPlanW
        (.response 500 "bad body" true)) :=
  ⟨rfl, (failing_steps_guarantees mTeamOkW uTeamNoneW mModOkW uModNoneW
      "https://tk" "tok" teamStateW teamPlanW moduleStateW modulePlanW
      (.response 200 "x" true) (.response 200 "x" true)
      500 "bad body" true).2.1 rfl⟩

/-- C2: for both kinds, the result of an Update is independent of the PATCH
response; once the PATCH exchange has completed the handler issues a
subsequent GET for the same entity URL, and the entity fields written into
tracked state all come from the decoded read-back response. -/
theorem update_uses_readback (m : TeamMarshal) (u : TeamUnmarshal)
    (mm : ModuleMarshal) (um : ModuleUnmarshal) (e t : String)
    (st pl : TeamResourceModel) (sm pm : ModuleResourceModel)
    (ps ps2 rs : Nat) (pb pb2 rb : String) (pk pk2 rk : Bool)
    (team : TeamEntity) (md : ModuleEntity) (renv : ExchangeResult) :
    teamUpdate m u e t st pl (.response ps pb pk) renv
      = teamUpdate m u e t st pl (.response ps2 pb2 pk2) renv
    ∧ ((m (teamUpdateBody st pl)).2 = true →
        (teamUpdate m u e t st pl (.response ps pb pk) (.response rs rb rk)).trace
          = [teamPatchRequest e t st (m (teamUpdateBody st pl)).1,
             teamGetRequest e t st])
    ∧ (teamGetRequest e t st).method = "GET"
    ∧ (teamGetRequest e t st).url
        = (teamPatchRequest e t st (m (teamUpdateBody st pl)).1).url
    ∧ ((m (teamUpdateBody st pl)).2 = true → u rb = some team →
        (teamUpdate m u e t st pl (.response ps pb pk) (.response rs rb rk)).outcome
          = .written { pl with
              id := st.id
              name := team.name
              manageState := team.manageState
              manageWorkspace := team.manageWorkspace
              manageModule := team.manageModule
              manageVcs := team.manageVcs
              manageProvider := team.manageProvider
              manageTemplate := team.manageTemplate
              manageJob := team.manageJob
              manageCollection := team.manageCollection })
    ∧ moduleUpdate mm um e t sm pm (.response ps pb pk) renv
      = moduleUpdate mm um e t sm pm (.response ps2 pb2 pk2) renv
    ∧ (moduleUpdate mm um e t sm pm (.response ps pb pk) (.response rs rb rk)).trace
        = [modulePatchRequest e t sm (mm (moduleUpdateBody sm pm)).1,
           moduleGetRequest e t sm]
    ∧ (moduleGetRequest e t sm).method = "GET"
    ∧ (moduleGetRequest e t sm).url
        = (modulePatchRequest e t sm (mm (moduleUpdateBody sm pm)).1).url
    ∧ (um rb = some md →
        (moduleUpdate mm um e t sm pm (.response ps pb pk) (.response rs rb rk)).outcome
          = .written { pm with
              id := sm.id
              name := md.name
              description := md.description
              providerName := md.provider
              source := md.source }) := by
  refine ⟨rfl, ?_, rfl, rfl, ?_, rfl, ?_, rfl, rfl, ?_⟩
  · intro hm
    cases hu : u rb <;> simp [teamUpdate, hm, hu]
  · intro hm hu
    simp [teamUpdate, hm, hu]
  · cases hu : um rb <;> simp [moduleUpdate, hu]
  · intro hu
    simp [moduleUpdate, hu]

theorem update_uses_readback_witness :
    (mTeamOkW (teamUpdateBody teamStateW teamPlanW)).2 = true
    ∧ uTeamSomeW "rb" = some teamEntityW
    ∧ (teamUpdate mTeamOkW uTeamSomeW "https://tk" "tok" teamStateW teamPlanW
        (.response 200 "pb" true) (.response 200 "rb" true)).outcome
        = .written { teamPlanW with
            id := teamStateW.id
            name := teamEntityW.name
            manageState := teamEntityW.manageState
            manageWorkspace := teamEntityW.manageWorkspace
            manageModule := teamEntityW.manageModule
            manageVcs := teamEntityW.manageVcs
            manageProvider := teamEntityW.manageProvider
            manageTemplate := teamEntityW.manageTemplate
            manageJob := teamEntityW.manageJob
            manageCollection := teamEntityW.manageCollection } :=
  ⟨rfl, rfl, (update_uses_readback mTeamOkW uTeamSomeW mModOkW uModSomeW
      "https://tk" "tok" teamStateW teamPlanW moduleStateW modulePlanW
      200 200 200 "pb" "pb" "rb" true true true teamEntityW moduleEntityW
      (.response 200 "rb" true)).2.2.2.2.1 rfl rfl⟩

/-- C9: whenever an Update of either kind writes state, the identifier of the
written state equals the identifier of the prior tracked state, never a value
taken from a server response. -/
theorem update_preserves_identifier (m : TeamMarshal) (u : TeamUnmarshal)
    (mm : ModuleMarshal) (um : ModuleUnmarshal) (e t : String)
    (st pl s : TeamResourceModel) (sm pm s2 : ModuleResourceModel)
    (penv renv : ExchangeResult) :
    ((teamUpdate m u e t st pl penv renv).outcome = .written s → s.id = st.id)
    ∧ ((moduleUpdate mm um e t sm pm penv renv).outcome = .written s2 →
        s2.id = sm.id) := by
  constructor
  · intro h
    cases hm : (m (teamUpdateBody st pl)).2 with
    | false => simp [teamUpdate, hm] at h
    | true =>
      cases penv with
      | transportError => simp [teamUpdate, hm] at h
      | response ps pb pk =>
        cases renv with
        | transportError => simp [teamUpdate, hm] at h
        | response rs rb rk =>
          cases hu : u rb with
          | none => simp [teamUpdate, hm, hu] at h
          | some team =>
            simp only [teamUpdate, hm, if_true] at h
            simp only [hu, StateOutcome.written.injEq] at h
            subst h
            rfl
  · intro h
    cases penv with
    | transportError => simp [moduleUpdate] at h
    | response ps pb pk =>
      cases renv with
      | transportError => simp [moduleUpdate] at h
      | response rs rb rk =>
        cases hu : um rb with
        | none => simp [moduleUpdate, hu] at h
        | some md =>
          simp only [moduleUpdate, hu, StateOutcome.written.injEq] at h
          subst h
          rfl

theorem update_preserves_identifier_witness :
    (teamUpdate mTeamOkW uTeamSomeW "https://tk" "tok" teamStateW teamPlanW
        (.response 200 "pb" true) (.response 200 "rb" true)).outcome
      = .written { teamPlanW with
          id := teamStateW.id
          name := teamEntityW.name
          manageState := teamEntityW.manageState
          manageWorkspace := teamEntityW.manageWorkspace
          manageModule := teamEntityW.manageModule
          manageVcs := teamEntityW.manageVcs
          manageProvider := teamEntityW.manageProvider
          manageTemplate := teamEntityW.manageTemplate
          manageJob := teamEntityW.manageJob
          manageCollection := teamEntityW.manageCollection }
    ∧ ({ teamPlanW with
          id := teamStateW.id
          name := teamEntityW.name
          manageState := teamEntityW.manageState
          manageWorkspace := teamEntityW.manageWorkspace
          manageModule := teamEntityW.manageModule
          manageVcs := teamEntityW.manageVcs
          manageProvider := teamEntityW.manageProvider
          manageTemplate := teamEntityW.manageTemplate
          manageJob := teamEntityW.manageJob
          manageCollection := teamEntityW.manageCollection } : TeamResourceModel).id
      = teamStateW.id := by
  refine ⟨rfl, ?_⟩
  exact (update_preserves_identifier mTeamOkW uTeamSomeW mModOkW uModSomeW
      "https://tk" "tok" teamStateW teamPlanW _ moduleStateW modulePlanW
      moduleStateW (.response 200 "pb" true) (.response 200 "rb" true)).1 rfl

/-- C8: creating the infra-admins team with manage_job set and every other
optional flag absent, against a server that echoes the submitted attributes
back under a fresh identifier, writes tracked state with manage_job true,
every other manage flag false and the non-empty fresh identifier; the
schema-layer defaults enter once through applyTeamDefaults and the handler
itself applies no further defaulting. -/
theorem create_team_scenario (org fresh e t b : String) (status : Nat)
    (k : Bool) (m : TeamMarshal) (u : TeamUnmarshal)
    (hm : (m (teamCreateBody (applyTeamDefaults (infraAdminsConfig org)))).2 = true)
    (hu : u b = some { teamCreateBody (applyTeamDefaults (infraAdminsConfig org)) with
          id := fresh })
    (hf : fresh ≠ "") :
    (teamCreate m u e t (applyTeamDefaults (infraAdminsConfig org))
        (.response status b k)).outcome
      = .written { id := fresh, name := "infra-admins", organizationId := org
                   manageState := false, manageWorkspace := false
                   manageModule := false, manageProvider := false
                   manageVcs := false, manageTemplate := false
                   manageJob := true, manageCollection := false }
    ∧ ({ id := fresh, name := "infra-admins", organizationId := org
         manageState := false, manageWorkspace := false
         manageModule := false, manageProvider := false
         manageVcs := false, manageTemplate := false
         manageJob := true, manageCollection := false } : TeamResourceModel).id
      ≠ "" := by
  constructor
  · simp only [teamCreate, hm, if_true, hu]
    simp [applyTeamDefaults, infraAdminsConfig, teamCreateBody]
  · exact hf

theorem create_team_scenario_witness :
    ("team-9" : String) ≠ ""
    ∧ (teamCreate mTeamOkW
        (fun _ => some { teamCreateBody (applyTeamDefaults (infraAdminsConfig "org-1")) with
            id := "team-9" })
        "https://tk" "tok" (applyTeamDefaults (infraAdminsConfig "org-1"))
        (.response 200 "b" true)).outcome
      = .written { id := "team-9", name := "infra-admins", organizationId := "org-1"
                   manageState := false, manageWorkspace := false
                   manageModule := false, manageProvider := false
                   manageVcs := false, manageTemplate := false
                   manageJob := true, manageCollection := false } :=
  ⟨by decide, (create_team_scenario "org-1" "team-9" "https://tk" "tok" "b" 200
      true mTeamOkW _ rfl rfl (by decide)).1⟩

end Terrakube
